import Mathlib

/-!
Shallow embedding of `src/server.js`: an Express application that issues
single-use, time-limited QR access tokens (POST /generate-qr) and verifies
them when scanned (GET /verify-qr), against a volatile in-memory token
store, with two outbound calls to an external event-logging service on the
successful verification path (a GET pre-check, then a POST of the event).

Modelling conventions:
- JS numbers holding millisecond timestamps become Int; a NaN-valued
  expiry (which arises when parseInt of the duration fails) becomes
  `none : Option Int`, and the comparison `now > expiresAt` is false for
  NaN, as in JS.
- The token store (a plain JS object used as a map) becomes an association
  list from token strings to records; in-place field mutation of a
  looked-up record becomes re-insertion of the updated record. The plain
  object also inherits from Object.prototype, so a read of an absent key
  that names an inherited member (constructor, toString, ...) yields a
  truthy non-record value; jsObjGet and verifyQrJs model this chain, and
  verifyQrJs agrees with the map-idealized verifyQr on every lookup that
  is an own property or an absent non-prototype key
  (verifyQrJs_eq_verifyQr).
- The fallible external effects (QR image rendering, SMS dispatch, the
  outbound GET and POST) are modelled by boolean success parameters; a
  rejected awaited promise makes the handler take the corresponding
  failure path.
- Request handlers become pure functions from (store, inputs) to
  (caller-visible outcome, store after the request).
-/

/-- A token record as stored in qrTokenStore (server.js line 65). The
status field holds the literal strings the code uses: "대기 중" (Pending),
"만료됨" (Expired), "인증 성공" (Verified). expiresAt is a millisecond
timestamp; `none` models NaN, which arises when parseInt(validTime) fails
(server.js line 60). -/
structure TokenRecord where
  phoneNumber : String
  expiresAt : Option Int
  isValid : Bool
  purpose : String
  device_id : String
  status : String
  deriving Repr, DecidableEq

/-- The JS comparison `Date.now() > tokenData.expiresAt` (server.js line
116): any comparison against NaN (`none`) is false. -/
def jsGt (now : Int) : Option Int → Bool
  | none => false
  | some t => decide (t < now)

/-- The in-memory token store qrTokenStore (server.js line 32), modelled
as an association list from token string to record. -/
abbrev Store := List (String × TokenRecord)

/-- The property read qrTokenStore[token] (server.js line 110). -/
def storeGet : Store → String → Option TokenRecord
  | [], _ => none
  | (k, r) :: rest, t => if k = t then some r else storeGet rest t

/-- The property write qrTokenStore[token] = record (server.js line 65);
also models the in-place field updates of a looked-up record (server.js
lines 117-118 and 162-163) as re-insertion under the same key. -/
def storeSet : Store → String → TokenRecord → Store
  | [], t, r => [(t, r)]
  | (k, r0) :: rest, t, r =>
      if k = t then (k, r) :: rest else (k, r0) :: storeSet rest t r

/-- JS truthiness test `!x` on a request-body string field (server.js line
51): undefined (`none`) and the empty string are falsy. -/
def isFalsy : Option String → Bool
  | none => true
  | some s => decide (s = "")

/-- The global hyphen strip applied to phoneNumber via a replace with the
regex matching "-" (server.js line 55). -/
def stripHyphens (s : String) : String := ⟨s.data.filter fun c => c ≠ '-'⟩

/-- JS parseInt(s) in its default radix-10 reading: skip leading
whitespace, an optional sign, then the longest leading run of decimal
digits; `none` models NaN (no digits found). The 0x hex-prefix form of
parseInt is not modelled: the program only applies parseInt to a form
field holding a duration in minutes (server.js line 60). -/
def jsParseInt (s : String) : Option Int :=
  let cs := s.toList.dropWhile fun c => c = ' ' || c = '\t' || c = '\n' || c = '\r'
  let signed : Bool × List Char :=
    match cs with
    | '-' :: rest => (true, rest)
    | '+' :: rest => (false, rest)
    | _ => (false, cs)
  let digits := signed.2.takeWhile Char.isDigit
  if digits.isEmpty then none
  else
    let n : Nat := digits.foldl (fun acc c => acc * 10 + (c.toNat - '0'.toNat)) 0
    some (if signed.1 then -(n : Int) else (n : Int))

/-- Caller-visible outcome of POST /generate-qr (server.js lines 48-94). -/
inductive GenerateResult
  | badRequest
  | serverError
  | page (phone : String)
  deriving Repr, DecidableEq

/-- POST /generate-qr (server.js lines 48-94). The fresh uuid token, the
current time and the success of the two fallible external effects
(qrcode.toDataURL at line 74, messageService.sendOne at line 78) come in
as parameters. badRequest is the 400 of line 52, serverError the 500 of
the catch block (lines 86-93), page the rendered result page of line 85.
Returns the outcome and the store after the request. -/
def generateQr (store : Store) (phoneNumber validTime : Option String)
    (token : String) (now : Int) (qrOk smsOk : Bool) :
    GenerateResult × Store :=
  if isFalsy phoneNumber || isFalsy validTime then
    (.badRequest, store)
  else
    let phone := stripHyphens (phoneNumber.getD "")
    let expiresAt : Option Int :=
      (jsParseInt (validTime.getD "")).map fun m => now + m * 60 * 1000
    let record : TokenRecord :=
      { phoneNumber := phone, expiresAt := expiresAt, isValid := true,
        purpose := "Visitor", device_id := "device", status := "대기 중" }
    let store' := storeSet store token record
    if !qrOk then (.serverError, store')
    else if !smsOk then (.serverError, store')
    else (.page phone, store')

/-- Caller-visible outcome of GET /verify-qr (server.js lines 101-168).
upstreamGetFail models the Error thrown at line 140 when the pre-check GET
fails; upstreamPostFail models the rejected axios.post of line 159
propagating. Neither is caught by the handler, so both leave it as a
propagated exception rather than as an explicit response. -/
inductive VerifyResult
  | missingToken
  | notFound
  | expiredResp
  | alreadyConsumed
  | alreadyConsumedWith (st : String)
  | upstreamGetFail
  | upstreamPostFail
  | success (phone : String)
  deriving Repr, DecidableEq

/-- GET /verify-qr (server.js lines 101-168). now is Date.now(); getOk and
postOk give the success of the outbound GET (line 133) and POST (line 159)
to the external event-logging service. missingToken is the 400 of line
106, notFound the 404 of line 114, expiredResp the 410 of line 119,
alreadyConsumed the 409 of line 122, alreadyConsumedWith the 409 of line
125 carrying the current status, success the page of lines 165-167.
Returns the outcome and the store after the request. -/
def verifyQr (store : Store) (token : String) (now : Int)
    (getOk postOk : Bool) : VerifyResult × Store :=
  if token = "" then (.missingToken, store)
  else
    match storeGet store token with
    | none => (.notFound, store)
    | some tokenData =>
      if jsGt now tokenData.expiresAt then
        (.expiredResp,
          storeSet store token { tokenData with isValid := false, status := "만료됨" })
      else if !tokenData.isValid then
        (.alreadyConsumed, store)
      else if tokenData.status ≠ "대기 중" then
        (.alreadyConsumedWith tokenData.status, store)
      else if !getOk then
        (.upstreamGetFail, store)
      else if !postOk then
        (.upstreamPostFail, store)
      else
        (.success tokenData.phoneNumber,
          storeSet store token { tokenData with isValid := false, status := "인증 성공" })

/-- The HTTP status the verification handler itself sets for each outcome;
`none` for the two outcomes that leave the handler as a propagated
exception (the route sets no status on those paths, so whatever the
framework then does to the caller is common to both). -/
def callerStatus : VerifyResult → Option Nat
  | .missingToken => some 400
  | .notFound => some 404
  | .expiredResp => some 410
  | .alreadyConsumed => some 409
  | .alreadyConsumedWith _ => some 409
  | .upstreamGetFail => none
  | .upstreamPostFail => none
  | .success _ => some 200

/-- The prototype chain of the plain object literal qrTokenStore
(server.js line 32): the property names inherited from Object.prototype.
A read of such a key on the store returns the inherited member (a
function, or Object.prototype itself for __proto__), which is truthy and
carries none of the TokenRecord fields. -/
def protoKeys : List String :=
  ["constructor", "hasOwnProperty", "isPrototypeOf", "propertyIsEnumerable",
   "toLocaleString", "toString", "valueOf", "__proto__", "__defineGetter__",
   "__defineSetter__", "__lookupGetter__", "__lookupSetter__"]

/-- Result of the JS property read qrTokenStore[token] (server.js line
110) with the prototype chain: an own property holds a TokenRecord; an
absent key that names an Object.prototype member yields that inherited
truthy value, whose record fields all read undefined; any other absent
key yields undefined. -/
inductive JsLookup
  | missing
  | inherited
  | record (r : TokenRecord)
  deriving Repr, DecidableEq

/-- The property read qrTokenStore[token] (server.js line 110) including
the prototype chain of the plain-object store. -/
def jsObjGet (s : Store) (t : String) : JsLookup :=
  match storeGet s t with
  | some r => .record r
  | none => if t ∈ protoKeys then .inherited else .missing

/-- GET /verify-qr (server.js lines 101-168) with the store's prototype
chain modelled. On an own property it behaves exactly as verifyQr. On an
absent key naming an Object.prototype member, the truthiness test of line
113 passes (the inherited value is truthy), line 116 compares Date.now()
against an undefined expiresAt — false by NaN semantics, so that expiry
branch is unreachable — and line 121 finds an undefined, hence falsy,
isValid, so the handler answers 409 AlreadyConsumed without touching the
store. -/
def verifyQrJs (store : Store) (token : String) (now : Int)
    (getOk postOk : Bool) : VerifyResult × Store :=
  if token = "" then (.missingToken, store)
  else
    match jsObjGet store token with
    | .missing => (.notFound, store)
    | .inherited =>
        if jsGt now none then
          (.expiredResp, store)
        else
          (.alreadyConsumed, store)
    | .record tokenData =>
      if jsGt now tokenData.expiresAt then
        (.expiredResp,
          storeSet store token { tokenData with isValid := false, status := "만료됨" })
      else if !tokenData.isValid then
        (.alreadyConsumed, store)
      else if tokenData.status ≠ "대기 중" then
        (.alreadyConsumedWith tokenData.status, store)
      else if !getOk then
        (.upstreamGetFail, store)
      else if !postOk then
        (.upstreamPostFail, store)
      else
        (.success tokenData.phoneNumber,
          storeSet store token { tokenData with isValid := false, status := "인증 성공" })

/-- One request against the server, for stating invariants over whole
request sequences. -/
inductive Op
  | gen (phoneNumber validTime : Option String) (token : String) (now : Int)
      (qrOk smsOk : Bool)
  | verify (token : String) (now : Int) (getOk postOk : Bool)

/-- The store after one request. -/
def applyOp (s : Store) : Op → Store
  | .gen ph vt tok now q m => (generateQr s ph vt tok now q m).2
  | .verify tok now g p => (verifyQr s tok now g p).2

/-- The store after a sequence of requests. -/
def runOps (s : Store) : List Op → Store
  | [] => s
  | op :: rest => runOps (applyOp s op) rest

/-- Freshness of issued tokens: uuidv4 (server.js line 59) never collides
with a key already in the store. -/
def opFresh (s : Store) : Op → Prop
  | .gen _ _ tok _ _ _ => storeGet s tok = none
  | .verify _ _ _ _ => True

/-- Every issuance in the sequence uses a token that is fresh at the
moment it runs. -/
def FreshRun (s : Store) : List Op → Prop
  | [] => True
  | op :: rest => opFresh s op ∧ FreshRun (applyOp s op) rest

/-- Position of a status string in the Pending to Expired or Verified
machine: Pending ("대기 중") is the initial state, every other status is a
final one. -/
def statusRank (st : String) : Nat := if st = "대기 중" then 0 else 1

/-- A concrete pending record used to instantiate theorems. -/
def sampleRecord : TokenRecord :=
  { phoneNumber := "01012345678", expiresAt := some 100, isValid := true,
    purpose := "Visitor", device_id := "device", status := "대기 중" }

/-- A concrete store holding one pending token. -/
def sampleStore : Store := [("tok1", sampleRecord)]

theorem storeGet_storeSet_self (s : Store) (t : String) (r : TokenRecord) :
    storeGet (storeSet s t r) t = some r := by
  induction s with
  | nil => simp [storeSet, storeGet]
  | cons hd tl ih =>
      obtain ⟨k, r0⟩ := hd
      by_cases hk : k = t
      · simp [storeSet, storeGet, hk]
      · simp [storeSet, storeGet, hk, ih]

theorem storeGet_storeSet_ne (s : Store) (t u : String) (r : TokenRecord)
    (h : u ≠ t) : storeGet (storeSet s t r) u = storeGet s u := by
  induction s with
  | nil => simp [storeSet, storeGet, Ne.symm h]
  | cons hd tl ih =>
      obtain ⟨k, r0⟩ := hd
      by_cases hk : k = t
      · subst hk
        simp [storeSet, storeGet, Ne.symm h]
      · simp [storeSet, storeGet, hk, ih]

theorem statusRank_le_one (st : String) : statusRank st ≤ 1 := by
  unfold statusRank
  split <;> omega

theorem statusRank_eq_zero_iff (st : String) : statusRank st = 0 ↔ st = "대기 중" := by
  unfold statusRank
  split <;> simp_all

theorem jsGt_mono (a b : Int) (e : Option Int) (h : jsGt a e = true) (hab : a ≤ b) :
    jsGt b e = true := by
  cases e with
  | none => simp [jsGt] at h
  | some v =>
      simp [jsGt] at h ⊢
      omega

theorem verifyQrJs_eq_verifyQr (store : Store) (token : String) (now : Int)
    (g p : Bool) (h : storeGet store token = none → token ∉ protoKeys) :
    verifyQrJs store token now g p = verifyQr store token now g p := by
  by_cases ht : token = ""
  · simp [verifyQrJs, verifyQr, ht]
  · cases hg : storeGet store token with
    | none => simp [verifyQrJs, verifyQr, jsObjGet, ht, hg, h hg]
    | some r => simp [verifyQrJs, verifyQr, jsObjGet, ht, hg]

theorem verify_success_flags (s : Store) (t : String) (n : Int) (g p : Bool)
    (ph : String) (h : (verifyQr s t n g p).1 = .success ph) :
    g = true ∧ p = true := by
  unfold verifyQr at h
  repeat' split at h
  all_goals simp_all

theorem generateQr_keeps (s : Store) (ph vt : Option String) (tok : String)
    (n : Int) (q m : Bool) (u : String) (r : TokenRecord)
    (hfresh : storeGet s tok = none) (h : storeGet s u = some r) :
    storeGet (generateQr s ph vt tok n q m).2 u = some r := by
  have hu : u ≠ tok := by
    intro he
    rw [he, hfresh] at h
    cases h
  unfold generateQr
  by_cases hf : (isFalsy ph || isFalsy vt) = true
  · simp [hf, h]
  · cases q <;> cases m <;>
      simp [hf, storeGet_storeSet_ne _ _ _ _ hu, h]

theorem verifyQr_mono (s : Store) (t : String) (n : Int) (g p : Bool)
    (u : String) (r : TokenRecord) (h : storeGet s u = some r) :
    ∃ r', storeGet (verifyQr s t n g p).2 u = some r' ∧
      (r.isValid = false → r'.isValid = false) ∧
      statusRank r.status ≤ statusRank r'.status := by
  by_cases ht : t = ""
  · exact ⟨r, by simp [verifyQr, ht, h], fun hv => hv, le_refl _⟩
  · cases hg : storeGet s t with
    | none => exact ⟨r, by simp [verifyQr, ht, hg, h], fun hv => hv, le_refl _⟩
    | some r0 =>
      by_cases hexp : jsGt n r0.expiresAt = true
      · by_cases hu : u = t
        · subst hu
          have hr : r = r0 := by rw [h] at hg; injection hg
          subst hr
          refine ⟨{ r with isValid := false, status := "만료됨" }, ?_, ?_, ?_⟩
          · simp [verifyQr, ht, hg, hexp, storeGet_storeSet_self]
          · intro
            rfl
          · show statusRank r.status ≤ statusRank "만료됨"
            have h1 : statusRank "만료됨" = 1 := by decide
            rw [h1]
            exact statusRank_le_one _
        · exact ⟨r, by simp [verifyQr, ht, hg, hexp, storeGet_storeSet_ne _ _ _ _ hu, h],
            fun hv => hv, le_refl _⟩
      · by_cases hv0 : r0.isValid = true
        · by_cases hst : r0.status = "대기 중"
          · cases hgOk : g with
            | false =>
                exact ⟨r, by simp [verifyQr, ht, hg, hexp, hv0, hst, h], fun hv => hv, le_refl _⟩
            | true =>
              cases hpOk : p with
              | false =>
                  exact ⟨r, by simp [verifyQr, ht, hg, hexp, hv0, hst, h], fun hv => hv, le_refl _⟩
              | true =>
                by_cases hu : u = t
                · subst hu
                  have hr : r = r0 := by rw [h] at hg; injection hg
                  subst hr
                  refine ⟨{ r with isValid := false, status := "인증 성공" }, ?_, ?_, ?_⟩
                  · simp [verifyQr, ht, hg, hexp, hv0, hst, storeGet_storeSet_self]
                  · intro
                    rfl
                  · show statusRank r.status ≤ statusRank "인증 성공"
                    have h1 : statusRank "인증 성공" = 1 := by decide
                    rw [h1]
                    exact statusRank_le_one _
                · exact ⟨r,
                    by simp [verifyQr, ht, hg, hexp, hv0, hst,
                      storeGet_storeSet_ne _ _ _ _ hu, h],
                    fun hv => hv, le_refl _⟩
          · exact ⟨r, by simp [verifyQr, ht, hg, hexp, hv0, hst, h], fun hv => hv, le_refl _⟩
        · exact ⟨r, by simp [verifyQr, ht, hg, hexp, hv0, h], fun hv => hv, le_refl _⟩

theorem applyOp_mono (s : Store) (op : Op) (u : String) (r : TokenRecord)
    (hok : opFresh s op) (h : storeGet s u = some r) :
    ∃ r', storeGet (applyOp s op) u = some r' ∧
      (r.isValid = false → r'.isValid = false) ∧
      statusRank r.status ≤ statusRank r'.status := by
  cases op with
  | gen ph vt tok n q m =>
      exact ⟨r, generateQr_keeps s ph vt tok n q m u r hok h, fun hv => hv, le_refl _⟩
  | verify tok n g p =>
      exact verifyQr_mono s tok n g p u r h

theorem runOps_mono (ops : List Op) : ∀ (s : Store) (t : String) (r r' : TokenRecord),
    FreshRun s ops → storeGet s t = some r → storeGet (runOps s ops) t = some r' →
    (r.isValid = false → r'.isValid = false) ∧
    statusRank r.status ≤ statusRank r'.status := by
  induction ops with
  | nil =>
      intro s t r r' _ h h'
      rw [runOps] at h'
      rw [h] at h'
      injection h' with he
      subst he
      exact ⟨fun hv => hv, le_refl _⟩
  | cons op rest ih =>
      intro s t r r' hfresh h h'
      obtain ⟨r1, h1, hv1, hs1⟩ := applyOp_mono s op t r hfresh.1 h
      obtain ⟨hv2, hs2⟩ := ih (applyOp s op) t r1 r' hfresh.2 h1 (by rw [runOps] at h'; exact h')
      exact ⟨fun hv => hv2 (hv1 hv), le_trans hs1 hs2⟩

/-- C1: a token whose record is in the store with status Pending and
isValid true, whose expiresAt has not passed, and for which both external
log calls succeed, verifies with the success outcome and its record is set
to isValid = false, status = Verified ("인증 성공"); a second verification
of the same token before its expiresAt passes yields AlreadyConsumed, so
success is observed exactly once per token. -/
theorem c1_verified_once (store : Store) (token : String) (r : TokenRecord)
    (now now2 : Int) (g2 p2 : Bool)
    (htok : token ≠ "")
    (hget : storeGet store token = some r)
    (hvalid : r.isValid = true)
    (hpend : r.status = "대기 중")
    (hexp : jsGt now r.expiresAt = false)
    (hexp2 : jsGt now2 r.expiresAt = false) :
    (verifyQr store token now true true).1 = .success r.phoneNumber ∧
    storeGet (verifyQr store token now true true).2 token =
      some { r with isValid := false, status := "인증 성공" } ∧
    (verifyQr (verifyQr store token now true true).2 token now2 g2 p2).1 =
      .alreadyConsumed := by
  have h1 : verifyQr store token now true true =
      (.success r.phoneNumber,
        storeSet store token { r with isValid := false, status := "인증 성공" }) := by
    unfold verifyQr
    simp [htok, hget, hexp, hvalid, hpend]
  refine ⟨by rw [h1], by rw [h1]; exact storeGet_storeSet_self _ _ _, ?_⟩
  rw [h1]
  unfold verifyQr
  simp [htok, storeGet_storeSet_self, hexp2]

/-- C1 witness: a concrete pending token verified at time 50 and scanned
again at time 60, both before its expiry time 100. -/
theorem c1_verified_once_witness :
    (verifyQr sampleStore "tok1" 50 true true).1 = .success sampleRecord.phoneNumber ∧
    storeGet (verifyQr sampleStore "tok1" 50 true true).2 "tok1" =
      some { sampleRecord with isValid := false, status := "인증 성공" } ∧
    (verifyQr (verifyQr sampleStore "tok1" 50 true true).2 "tok1" 60 true true).1 =
      .alreadyConsumed :=
  c1_verified_once sampleStore "tok1" sampleRecord 50 60 true true (by decide)
    (by decide) (by decide) (by decide) (by decide) (by decide)

/-- C2 counterexample: a pending token with expiry time 100, scanned at
time 200 and again at time 300. The first scan yields Expired and marks
the record invalid and Expired ("만료됨"); the second scan yields Expired
again, not AlreadyConsumed, because the expiry check at server.js line 116
runs before the isValid check of line 121 and still fires. -/
theorem c2_second_scan_counterexample :
    (verifyQr sampleStore "tok1" 200 true true).1 = .expiredResp ∧
    storeGet (verifyQr sampleStore "tok1" 200 true true).2 "tok1" =
      some { sampleRecord with isValid := false, status := "만료됨" } ∧
    (verifyQr (verifyQr sampleStore "tok1" 200 true true).2 "tok1" 300 true true).1 =
      .expiredResp ∧
    (verifyQr (verifyQr sampleStore "tok1" 200 true true).2 "tok1" 300 true true).1 ≠
      .alreadyConsumed := by
  decide

/-- C2 amended: a pending token scanned past its expiresAt yields Expired
and its record is set to isValid = false, status = Expired ("만료됨");
every subsequent scan of that token (necessarily still past expiresAt, as
time only moves forward) yields Expired again, not AlreadyConsumed, and
the record stays isValid = false with status Expired — the invalid flag,
once set, stays set, but the caller keeps seeing Expired. -/
theorem c2_expired_rescan (store : Store) (token : String) (r : TokenRecord)
    (now now2 : Int) (g p g2 p2 : Bool)
    (htok : token ≠ "")
    (hget : storeGet store token = some r)
    (_hpend : r.status = "대기 중")
    (hexp : jsGt now r.expiresAt = true)
    (hle : now ≤ now2) :
    (verifyQr store token now g p).1 = .expiredResp ∧
    storeGet (verifyQr store token now g p).2 token =
      some { r with isValid := false, status := "만료됨" } ∧
    (verifyQr (verifyQr store token now g p).2 token now2 g2 p2).1 = .expiredResp ∧
    storeGet (verifyQr (verifyQr store token now g p).2 token now2 g2 p2).2 token =
      some { r with isValid := false, status := "만료됨" } := by
  have hexp2 : jsGt now2 r.expiresAt = true := jsGt_mono now now2 r.expiresAt hexp hle
  have h1 : verifyQr store token now g p =
      (.expiredResp,
        storeSet store token { r with isValid := false, status := "만료됨" }) := by
    unfold verifyQr
    simp [htok, hget, hexp]
  have h2 : verifyQr (verifyQr store token now g p).2 token now2 g2 p2 =
      (.expiredResp,
        storeSet (verifyQr store token now g p).2 token
          { r with isValid := false, status := "만료됨" }) := by
    rw [h1]
    unfold verifyQr
    simp [htok, storeGet_storeSet_self, hexp2]
  refine ⟨by rw [h1], by rw [h1]; exact storeGet_storeSet_self _ _ _, by rw [h2], ?_⟩
  rw [h2]
  exact storeGet_storeSet_self _ _ _

/-- C2 amended witness: the concrete pending token with expiry time 100,
scanned at times 200 and 300. -/
theorem c2_expired_rescan_witness :
    (verifyQr sampleStore "tok1" 200 true true).1 = .expiredResp ∧
    storeGet (verifyQr sampleStore "tok1" 200 true true).2 "tok1" =
      some { sampleRecord with isValid := false, status := "만료됨" } ∧
    (verifyQr (verifyQr sampleStore "tok1" 200 true true).2 "tok1" 300 true true).1 =
      .expiredResp ∧
    storeGet (verifyQr (verifyQr sampleStore "tok1" 200 true true).2 "tok1" 300 true true).2
      "tok1" = some { sampleRecord with isValid := false, status := "만료됨" } :=
  c2_expired_rescan sampleStore "tok1" sampleRecord 200 300 true true true true
    (by decide) (by decide) (by decide) (by decide) (by decide)

/-- C3: when the POST of the event to the external logging service fails,
the verification ends as a propagated submission failure and no local
state mutation occurs — the store is unchanged and the token keeps its
Pending, valid record; moreover finalization is only reachable after a
successful submission: any run whose outcome is the success page had
postOk = true. -/
theorem c3_post_failure_no_mutation (store : Store) (token : String)
    (r : TokenRecord) (now : Int)
    (s2 : Store) (t2 : String) (n2 : Int) (g2 p2 : Bool) (ph2 : String)
    (htok : token ≠ "")
    (hget : storeGet store token = some r)
    (hvalid : r.isValid = true)
    (hpend : r.status = "대기 중")
    (hexp : jsGt now r.expiresAt = false)
    (hsucc : (verifyQr s2 t2 n2 g2 p2).1 = .success ph2) :
    (verifyQr store token now true false).1 = .upstreamPostFail ∧
    (verifyQr store token now true false).2 = store ∧
    storeGet (verifyQr store token now true false).2 token = some r ∧
    p2 = true := by
  have h1 : verifyQr store token now true false = (.upstreamPostFail, store) := by
    unfold verifyQr
    simp [htok, hget, hexp, hvalid, hpend]
  exact ⟨by rw [h1], by rw [h1], by rw [h1]; exact hget,
    (verify_success_flags s2 t2 n2 g2 p2 ph2 hsucc).2⟩

/-- C3 witness: the concrete pending token at time 50 with a failing POST
leaves the store untouched; a separate successful run at time 50 with both
calls succeeding indeed had postOk = true. -/
theorem c3_post_failure_no_mutation_witness :
    (verifyQr sampleStore "tok1" 50 true false).1 = .upstreamPostFail ∧
    (verifyQr sampleStore "tok1" 50 true false).2 = sampleStore ∧
    storeGet (verifyQr sampleStore "tok1" 50 true false).2 "tok1" = some sampleRecord ∧
    true = true :=
  c3_post_failure_no_mutation sampleStore "tok1" sampleRecord 50
    sampleStore "tok1" 50 true true sampleRecord.phoneNumber
    (by decide) (by decide) (by decide) (by decide) (by decide) (by decide)

/-- C4: when the pre-check GET to the external logging service fails, the
verification aborts with the UpstreamUnavailable kind (the error thrown at
server.js line 140), no state mutation occurs, and the token's record
remains Pending and valid, so a retry is possible. -/
theorem c4_precheck_failure_aborts (store : Store) (token : String)
    (r : TokenRecord) (now : Int) (p : Bool)
    (htok : token ≠ "")
    (hget : storeGet store token = some r)
    (hvalid : r.isValid = true)
    (hpend : r.status = "대기 중")
    (hexp : jsGt now r.expiresAt = false) :
    (verifyQr store token now false p).1 = .upstreamGetFail ∧
    (verifyQr store token now false p).2 = store ∧
    storeGet (verifyQr store token now false p).2 token = some r ∧
    r.isValid = true ∧ r.status = "대기 중" := by
  have h1 : verifyQr store token now false p = (.upstreamGetFail, store) := by
    unfold verifyQr
    simp [htok, hget, hexp, hvalid, hpend]
  exact ⟨by rw [h1], by rw [h1], by rw [h1]; exact hget, hvalid, hpend⟩

/-- C4 witness: the concrete pending token at time 50 with a failing
pre-check GET. -/
theorem c4_precheck_failure_aborts_witness :
    (verifyQr sampleStore "tok1" 50 false true).1 = .upstreamGetFail ∧
    (verifyQr sampleStore "tok1" 50 false true).2 = sampleStore ∧
    storeGet (verifyQr sampleStore "tok1" 50 false true).2 "tok1" = some sampleRecord ∧
    sampleRecord.isValid = true ∧ sampleRecord.status = "대기 중" :=
  c4_precheck_failure_aborts sampleStore "tok1" sampleRecord 50 true
    (by decide) (by decide) (by decide) (by decide) (by decide)

/-- C5 counterexample: the token identifier "constructor" has no record
in the empty store, yet verification answers 409 AlreadyConsumed, not 404
NotFound: qrTokenStore["constructor"] finds the truthy inherited
Object.prototype.constructor, so the lookup-failure test of line 113 does
not fire; the expiry comparison against an undefined expiresAt is false
(line 116), and the undefined isValid is falsy (line 121). No state
changes. -/
theorem c5_prototype_counterexample :
    storeGet ([] : Store) "constructor" = none ∧
    (verifyQrJs ([] : Store) "constructor" 0 true true).1 = .alreadyConsumed ∧
    (verifyQrJs ([] : Store) "constructor" 0 true true).1 ≠ .notFound ∧
    (verifyQrJs ([] : Store) "constructor" 0 true true).2 = ([] : Store) := by
  decide

/-- C5 amended: verifying a (nonempty) token identifier that has no
record in the store yields NotFound and changes no state, whatever the
store holds — provided the identifier does not name an Object.prototype
member; an absent identifier that does name an inherited member instead
yields AlreadyConsumed, still changing no state. -/
theorem c5_unknown_token_amended (store : Store) (token : String)
    (now : Int) (g p : Bool)
    (htok : token ≠ "")
    (hget : storeGet store token = none) :
    (token ∉ protoKeys →
      (verifyQrJs store token now g p).1 = .notFound ∧
      (verifyQrJs store token now g p).2 = store) ∧
    (token ∈ protoKeys →
      (verifyQrJs store token now g p).1 = .alreadyConsumed ∧
      (verifyQrJs store token now g p).2 = store) := by
  constructor
  · intro hp
    unfold verifyQrJs jsObjGet
    simp [htok, hget, hp]
  · intro hp
    unfold verifyQrJs jsObjGet
    simp [htok, hget, hp, jsGt]

/-- C5 amended witness: against the concrete one-entry store, the unknown
key "missing" yields NotFound and the unknown key "constructor" yields
AlreadyConsumed; neither touches the store. -/
theorem c5_unknown_token_amended_witness :
    ((verifyQrJs sampleStore "missing" 0 true true).1 = .notFound ∧
     (verifyQrJs sampleStore "missing" 0 true true).2 = sampleStore) ∧
    ((verifyQrJs sampleStore "constructor" 7 false true).1 = .alreadyConsumed ∧
     (verifyQrJs sampleStore "constructor" 7 false true).2 = sampleStore) :=
  ⟨(c5_unknown_token_amended sampleStore "missing" 0 true true (by decide)
      (by decide)).1 (by decide),
   (c5_unknown_token_amended sampleStore "constructor" 7 false true (by decide)
      (by decide)).2 (by decide)⟩

/-- C6 counterexample: two verification runs on the same fresh pending
token, one failing the pre-check GET and one failing the event POST, are
two distinct failure causes, yet the handler sets no status on either path
(both leave it as a propagated exception), so their caller-visible
statuses coincide. -/
theorem c6_upstream_collapse_counterexample :
    (verifyQr sampleStore "tok1" 50 false true).1 = .upstreamGetFail ∧
    (verifyQr sampleStore "tok1" 50 true false).1 = .upstreamPostFail ∧
    (verifyQr sampleStore "tok1" 50 false true).1 ≠
      (verifyQr sampleStore "tok1" 50 true false).1 ∧
    callerStatus (verifyQr sampleStore "tok1" 50 false true).1 =
      callerStatus (verifyQr sampleStore "tok1" 50 true false).1 := by
  decide

/-- C6 amended: the explicitly reported failure kinds NotFound (404),
Expired (410) and AlreadyConsumed (409, in both its forms) have pairwise
distinct caller-visible statuses, distinct also from the missing-token 400
and the success 200; but the UpstreamUnavailable and SubmissionFailure
kinds both leave the handler as a propagated exception with no per-kind
status, so those two failure causes are reported identically. -/
theorem c6_distinct_statuses_amended :
    callerStatus .notFound = some 404 ∧
    callerStatus .expiredResp = some 410 ∧
    callerStatus .alreadyConsumed = some 409 ∧
    callerStatus (.alreadyConsumedWith "인증 성공") = some 409 ∧
    callerStatus .notFound ≠ callerStatus .expiredResp ∧
    callerStatus .notFound ≠ callerStatus .alreadyConsumed ∧
    callerStatus .expiredResp ≠ callerStatus .alreadyConsumed ∧
    callerStatus .notFound ≠ callerStatus .missingToken ∧
    callerStatus .expiredResp ≠ callerStatus .missingToken ∧
    callerStatus .alreadyConsumed ≠ callerStatus .missingToken ∧
    callerStatus .notFound ≠ callerStatus (.success "p") ∧
    callerStatus .upstreamGetFail = none ∧
    callerStatus .upstreamPostFail = none ∧
    callerStatus .upstreamGetFail = callerStatus .upstreamPostFail := by
  decide

/-- C7: across any sequence of issuance and verification requests in which
issued tokens are fresh (as the uuid generator guarantees), each record's
isValid flag is monotonic — once false it never reverts to true — and its
status never moves back to an earlier state of the Pending-to-final
machine: its rank never decreases, and in particular a record that has
left Pending never shows Pending again. -/
theorem c7_monotonic (s : Store) (ops : List Op) (t : String)
    (r r' : TokenRecord)
    (hfresh : FreshRun s ops)
    (h : storeGet s t = some r)
    (h' : storeGet (runOps s ops) t = some r') :
    (r.isValid = false → r'.isValid = false) ∧
    statusRank r.status ≤ statusRank r'.status ∧
    (r.status ≠ "대기 중" → r'.status ≠ "대기 중") := by
  obtain ⟨hv, hs⟩ := runOps_mono ops s t r r' hfresh h h'
  refine ⟨hv, hs, fun hne hpe => hne ?_⟩
  rw [hpe] at hs
  have h0 : statusRank "대기 중" = 0 := by decide
  rw [h0] at hs
  exact (statusRank_eq_zero_iff _).mp (Nat.le_zero.mp hs)

/-- An already-consumed concrete record, used to instantiate monotonicity
at a record whose invalid flag is already set. -/
def consumedRecord : TokenRecord :=
  { sampleRecord with isValid := false, status := "인증 성공" }

/-- A concrete store holding one consumed token. -/
def consumedStore : Store := [("tok1", consumedRecord)]

/-- C7 witness: scanning the consumed token at time 200 (past its expiry
100) re-fires the expiry branch; the record stays invalid and its status
stays out of Pending. -/
theorem c7_monotonic_witness :
    ({ consumedRecord with isValid := false, status := "만료됨" } : TokenRecord).isValid
      = false ∧
    statusRank consumedRecord.status ≤
      statusRank ({ consumedRecord with isValid := false, status := "만료됨" } : TokenRecord).status ∧
    ({ consumedRecord with isValid := false, status := "만료됨" } : TokenRecord).status
      ≠ "대기 중" := by
  have h := c7_monotonic consumedStore [Op.verify "tok1" 200 true true] "tok1"
    consumedRecord { consumedRecord with isValid := false, status := "만료됨" }
    ⟨trivial, trivial⟩ (by decide) (by decide)
  exact ⟨h.1 (by decide), h.2.1, h.2.2 (by decide)⟩

/-- C8: issuance with a missing (falsy) phone number or validity duration
fails with BadRequest and stores nothing; otherwise a record is stored
under the token whose phoneNumber is the input with hyphens stripped,
whose expiresAt is the issuance time plus parseInt(validTime) times 60000
milliseconds (NaN-propagating), and whose initial state is status =
Pending ("대기 중") and isValid = true; when the duration parses as d, the
stored expiresAt is exactly now + d * 60000. -/
theorem c8_issuance (store : Store) (phoneNumber validTime : Option String)
    (token : String) (now : Int) (qrOk smsOk : Bool) :
    ((isFalsy phoneNumber || isFalsy validTime) = true →
      (generateQr store phoneNumber validTime token now qrOk smsOk).1 = .badRequest ∧
      (generateQr store phoneNumber validTime token now qrOk smsOk).2 = store) ∧
    ((isFalsy phoneNumber || isFalsy validTime) = false →
      storeGet (generateQr store phoneNumber validTime token now qrOk smsOk).2 token =
        some { phoneNumber := stripHyphens (phoneNumber.getD ""),
               expiresAt := (jsParseInt (validTime.getD "")).map fun m => now + m * 60 * 1000,
               isValid := true, purpose := "Visitor", device_id := "device",
               status := "대기 중" }) ∧
    (∀ d : Int, jsParseInt (validTime.getD "") = some d →
      (isFalsy phoneNumber || isFalsy validTime) = false →
      storeGet (generateQr store phoneNumber validTime token now qrOk smsOk).2 token =
        some { phoneNumber := stripHyphens (phoneNumber.getD ""),
               expiresAt := some (now + d * 60 * 1000),
               isValid := true, purpose := "Visitor", device_id := "device",
               status := "대기 중" }) := by
  refine ⟨?_, ?_, ?_⟩
  · intro hf
    unfold generateQr
    simp [hf]
  · intro hf
    unfold generateQr
    cases qrOk <;> cases smsOk <;> simp [hf, storeGet_storeSet_self]
  · intro d hd hf
    unfold generateQr
    cases qrOk <;> cases smsOk <;> simp [hf, hd, storeGet_storeSet_self]

/-- C8 witness: a missing phone number is rejected and stores nothing; a
well-formed request stores the normalized record with expiry 1000 + 5
minutes. -/
theorem c8_issuance_witness :
    ((generateQr [] none (some "5") "t" 1000 true true).1 = .badRequest ∧
     (generateQr [] none (some "5") "t" 1000 true true).2 = []) ∧
    storeGet (generateQr [] (some "010-1234-5678") (some "5") "t" 1000 true true).2 "t" =
      some { phoneNumber := stripHyphens ((some "010-1234-5678").getD ""),
             expiresAt := some (1000 + 5 * 60 * 1000),
             isValid := true, purpose := "Visitor", device_id := "device",
             status := "대기 중" } :=
  ⟨(c8_issuance [] none (some "5") "t" 1000 true true).1 (by decide),
   (c8_issuance [] (some "010-1234-5678") (some "5") "t" 1000 true true).2.2 5
     (by decide) (by decide)⟩

/-- C9: when QR-image rendering or SMS dispatch fails after the record was
stored, the caller receives the generic server failure, the token record
remains present in the store exactly as stored (no rollback), and every
other key of the store is untouched. -/
theorem c9_delivery_failure_keeps_record (store : Store)
    (phoneNumber validTime : Option String) (token u : String) (now : Int)
    (qrOk smsOk : Bool)
    (hph : isFalsy phoneNumber = false)
    (hvt : isFalsy validTime = false)
    (hfail : qrOk = false ∨ smsOk = false)
    (hu : u ≠ token) :
    (generateQr store phoneNumber validTime token now qrOk smsOk).1 = .serverError ∧
    storeGet (generateQr store phoneNumber validTime token now qrOk smsOk).2 token =
      some { phoneNumber := stripHyphens (phoneNumber.getD ""),
             expiresAt := (jsParseInt (validTime.getD "")).map fun m => now + m * 60 * 1000,
             isValid := true, purpose := "Visitor", device_id := "device",
             status := "대기 중" } ∧
    storeGet (generateQr store phoneNumber validTime token now qrOk smsOk).2 u =
      storeGet store u := by
  unfold generateQr
  rcases hfail with hq | hm
  · subst hq
    cases smsOk <;>
      simp [hph, hvt, storeGet_storeSet_self, storeGet_storeSet_ne _ _ _ _ hu]
  · subst hm
    cases qrOk <;>
      simp [hph, hvt, storeGet_storeSet_self, storeGet_storeSet_ne _ _ _ _ hu]

/-- C9 witness: SMS dispatch fails on a well-formed issuance; the record
is stored anyway and an unrelated key is untouched. -/
theorem c9_delivery_failure_keeps_record_witness :
    (generateQr sampleStore (some "010-1111-2222") (some "3") "t" 0 true false).1 =
      .serverError ∧
    storeGet (generateQr sampleStore (some "010-1111-2222") (some "3") "t" 0 true false).2 "t" =
      some { phoneNumber := stripHyphens ((some "010-1111-2222").getD ""),
             expiresAt := (jsParseInt ((some "3").getD "")).map fun m => 0 + m * 60 * 1000,
             isValid := true, purpose := "Visitor", device_id := "device",
             status := "대기 중" } ∧
    storeGet (generateQr sampleStore (some "010-1111-2222") (some "3") "t" 0 true false).2 "tok1" =
      storeGet sampleStore "tok1" :=
  c9_delivery_failure_keeps_record sampleStore (some "010-1111-2222") (some "3") "t" "tok1"
    0 true false (by decide) (by decide) (Or.inr (by decide)) (by decide)

/-- C10: an issuance whose validity duration does not parse stores a
record whose expiresAt is NaN; since the comparison now > NaN is false at
every time, a token whose record has a NaN expiresAt never takes the
Expired transition, and while its record is still Pending and valid it
verifies successfully at any time whatsoever. -/
theorem c10_nan_duration_never_expires (store : Store)
    (phoneNumber validTime : Option String) (token : String) (now : Int)
    (qrOk smsOk : Bool) (s2 : Store) (r : TokenRecord) (now2 : Int) (g p : Bool)
    (hph : isFalsy phoneNumber = false)
    (hvt : isFalsy validTime = false)
    (hparse : jsParseInt (validTime.getD "") = none)
    (htok : token ≠ "")
    (hget : storeGet s2 token = some r)
    (hnan : r.expiresAt = none)
    (hvalid : r.isValid = true)
    (hpend : r.status = "대기 중") :
    storeGet (generateQr store phoneNumber validTime token now qrOk smsOk).2 token =
      some { phoneNumber := stripHyphens (phoneNumber.getD ""), expiresAt := none,
             isValid := true, purpose := "Visitor", device_id := "device",
             status := "대기 중" } ∧
    (verifyQr s2 token now2 g p).1 ≠ .expiredResp ∧
    (verifyQr s2 token now2 true true).1 = .success r.phoneNumber := by
  have hjs : jsGt now2 r.expiresAt = false := by rw [hnan]; rfl
  refine ⟨?_, ?_, ?_⟩
  · unfold generateQr
    cases qrOk <;> cases smsOk <;> simp [hph, hvt, hparse, storeGet_storeSet_self]
  · unfold verifyQr
    simp only [htok, if_neg, hget, hjs]
    repeat' split
    all_goals simp_all
  · unfold verifyQr
    simp [htok, hget, hjs, hvalid, hpend]

/-- C10 witness: issuing with duration "abc" stores a NaN-expiry record;
that token then verifies successfully even at time 999999999999, and never
as Expired. -/
theorem c10_nan_duration_never_expires_witness :
    storeGet (generateQr [] (some "010") (some "abc") "t" 1000 true true).2 "t" =
      some { phoneNumber := stripHyphens ((some "010").getD ""), expiresAt := none,
             isValid := true, purpose := "Visitor", device_id := "device",
             status := "대기 중" } ∧
    (verifyQr (generateQr [] (some "010") (some "abc") "t" 1000 true true).2 "t"
      999999999999 false false).1 ≠ .expiredResp ∧
    (verifyQr (generateQr [] (some "010") (some "abc") "t" 1000 true true).2 "t"
      999999999999 true true).1 =
      .success ({ phoneNumber := stripHyphens ((some "010").getD ""), expiresAt := none,
                  isValid := true, purpose := "Visitor", device_id := "device",
                  status := "대기 중" } : TokenRecord).phoneNumber :=
  c10_nan_duration_never_expires [] (some "010") (some "abc") "t" 1000 true true
    (generateQr [] (some "010") (some "abc") "t" 1000 true true).2
    { phoneNumber := stripHyphens ((some "010").getD ""), expiresAt := none,
      isValid := true, purpose := "Visitor", device_id := "device", status := "대기 중" }
    999999999999 false false
    (by decide) (by decide) (by decide) (by decide) (by decide) (by decide) (by decide)
    (by decide)
